import Mathlib

/-!
Verification development for the FitFinder resume-ranking engine
(`src/backend/enhanced_resume_ranker_connect.py`).

The Python source is shallowly embedded: pure functions become Lean
functions over `List`/`String`/`ℚ`/`ℤ`; Python floats are modelled as
exact rationals; Python's `re` matching for the concrete patterns in
`extract_experience_years` is modelled by hand-written deterministic
scanners that agree with the backtracking semantics of those specific
patterns (justifications inline).
-/

namespace FitFinder

/-! ## Configuration and adaptive weights

Embeds `_get_default_config` and `_calculate_adaptive_weights`.
Only the four weight entries of the config dict are relevant here.
-/

/-- The four weight entries of the configuration dictionary. -/
structure WeightConfig where
  text_weight : ℚ
  skill_weight : ℚ
  experience_weight : ℚ
  education_weight : ℚ

/-- Weight entries of `_get_default_config`:
`skill_weight 0.35, text_weight 0.3, experience_weight 0.2, education_weight 0.15`. -/
def default_config : WeightConfig :=
  { text_weight := 0.3
    skill_weight := 0.35
    experience_weight := 0.2
    education_weight := 0.15 }

/-- The weights dictionary built by `_calculate_adaptive_weights`. -/
structure Weights where
  text : ℚ
  skills : ℚ
  experience : ℚ
  education : ℚ

/-- Sum of the four weights (Python `sum(weights.values())`). -/
def Weights.total (w : Weights) : ℚ :=
  w.text + w.skills + w.experience + w.education

/-- `total_skills = sum(len(skills) for skills in job_skills.values())` —
a skills mapping is modelled as an association list (Python dicts preserve
insertion order). -/
def total_skills (job_skills : List (String × List String)) : ℕ :=
  (job_skills.map (fun p => p.2.length)).sum

/-- Embeds `_calculate_adaptive_weights(job_skills, job_exp_years)`:
start from the configured base weights; if `total_skills > 15` shift
`skills += 0.1, text -= 0.05, experience -= 0.05`; if `job_exp_years > 7`
shift `experience += 0.1, education -= 0.05, text -= 0.05`; then divide
every weight by the total. `job_exp_years` is an `ℤ` because the source
feeds it `extract_experience_years`, which returns a Python `int`. -/
def calculate_adaptive_weights (config : WeightConfig)
    (job_skills : List (String × List String)) (job_exp_years : ℤ) : Weights :=
  let w0 : Weights :=
    { text := config.text_weight
      skills := config.skill_weight
      experience := config.experience_weight
      education := config.education_weight }
  let w1 : Weights :=
    if total_skills job_skills > 15 then
      { w0 with skills := w0.skills + 0.1, text := w0.text - 0.05,
                experience := w0.experience - 0.05 }
    else w0
  let w2 : Weights :=
    if job_exp_years > 7 then
      { w1 with experience := w1.experience + 0.1, education := w1.education - 0.05,
                text := w1.text - 0.05 }
    else w1
  let total := w2.total
  { text := w2.text / total
    skills := w2.skills / total
    experience := w2.experience / total
    education := w2.education / total }

/-! ## Per-candidate scores (from `rank_resumes`) -/

/-- Embeds the experience-score computation of `rank_resumes`:
```
if job_analysis.experience_required > 0:
    exp_ratio = resume_years / required
    exp_score = exp_ratio if exp_ratio <= 1 else 1.0 - min((exp_ratio - 1) * 0.1, 0.3)
else:
    exp_score = min(resume_years / 5, 1.0)
```
Both year counts come from `extract_experience_years` and are `ℤ`. -/
def experience_score (candidate_years required_years : ℤ) : ℚ :=
  if required_years > 0 then
    let exp_ratio : ℚ := (candidate_years : ℚ) / (required_years : ℚ)
    if exp_ratio ≤ 1 then exp_ratio
    else 1 - min ((exp_ratio - 1) * 0.1) 0.3
  else
    min ((candidate_years : ℚ) / 5) 1

/-- Embeds the combined-score computation of `rank_resumes`:
`weights['text']*text_similarity + weights['skills']*skill_score +
 weights['experience']*exp_score + weights['education']*edu_score`. -/
def combined_score (w : Weights)
    (text_similarity skill_score exp_score edu_score : ℚ) : ℚ :=
  w.text * text_similarity + w.skills * skill_score +
    w.experience * exp_score + w.education * edu_score

/-- Embeds `match_percentage = combined_score * 100`. -/
def match_percentage (combined : ℚ) : ℚ := combined * 100

/-! ## Experience extraction (from `extract_experience_years`)

The eight regular expressions of `extract_experience_years` are modelled by
deterministic scanners over the lower-cased character list (ASCII model of
`\d`/`\s`/`lower()`, which covers the corpus). Each scanner agrees with the
pattern's Python backtracking semantics: for these patterns greedy matching
never needs to backtrack, because every quantified class (`\d+`, `\s*`,
`\s+`, optional `+`/`s`/`of ...`) is followed by a token that cannot begin
with a character of that class, and in each ordered alternation
(`experience|exp`, `\s*of\s*|\s+`, `working|in\s+field`, `present|current`)
whenever the first branch matches at a position where the rest of the
pattern later fails, the second branch also fails at that position.
`re.findall` is the usual scan: try the pattern at each position and
continue after the end of each (non-empty) match.
-/

/-- Python `\s` on ASCII text. -/
def pySpace (c : Char) : Bool :=
  c = ' ' || c = '\t' || c = '\n' || c = '\r' || c = '\x0b' || c = '\x0c'

/-- Greedy `\d+`: split off the leading ASCII digits. -/
def spanDigits (l : List Char) : List Char × List Char :=
  (l.takeWhile Char.isDigit, l.dropWhile Char.isDigit)

/-- Greedy `\s*`. -/
def dropSpaces (l : List Char) : List Char := l.dropWhile pySpace

/-- `\s+`: at least one whitespace character, then greedy. -/
def oneSpace : List Char → Option (List Char)
  | [] => none
  | c :: r => if pySpace c then some (dropSpaces r) else none

/-- Match a literal string, returning the remainder. -/
def stripLit : List Char → List Char → Option (List Char)
  | [], l => some l
  | _ :: _, [] => none
  | c :: cs, d :: ds => if d = c then stripLit cs ds else none

/-- A greedy optional single character (`\+?`, `s?`). -/
def optChar (c : Char) : List Char → List Char
  | [] => []
  | d :: r => if d = c then r else d :: r

/-- Numeric value of a captured digit string (Python `int`). -/
def digitsToNat (ds : List Char) : ℕ :=
  ds.foldl (fun acc c => 10 * acc + (c.toNat - '0'.toNat)) 0

/-- Pattern 1: `(\d+)\+?\s*years?\s*(?:of\s*)?(?:experience|exp)`. -/
def tryP1 (l : List Char) : Option (ℕ × List Char) :=
  let (ds, r1) := spanDigits l
  if ds.isEmpty then none else
  let r3 := dropSpaces (optChar '+' r1)
  match stripLit "year".data r3 with
  | none => none
  | some r4 =>
    let r6 := dropSpaces (optChar 's' r4)
    let r7 := match stripLit "of".data r6 with
      | some x => dropSpaces x
      | none => r6
    match stripLit "experience".data r7 with
    | some r8 => some (digitsToNat ds, r8)
    | none =>
      match stripLit "exp".data r7 with
      | some r8 => some (digitsToNat ds, r8)
      | none => none

/-- Pattern 2: `(\d+)\+?\s*years?\s*in\s+`. -/
def tryP2 (l : List Char) : Option (ℕ × List Char) :=
  let (ds, r1) := spanDigits l
  if ds.isEmpty then none else
  let r3 := dropSpaces (optChar '+' r1)
  match stripLit "year".data r3 with
  | none => none
  | some r4 =>
    let r6 := dropSpaces (optChar 's' r4)
    match stripLit "in".data r6 with
    | none => none
    | some r7 =>
      match oneSpace r7 with
      | none => none
      | some r8 => some (digitsToNat ds, r8)

/-- Pattern 3: `(?:experience|exp)(?:\s*of\s*|\s+)(\d+)\+?\s*years?`. -/
def tryP3 (l : List Char) : Option (ℕ × List Char) :=
  let first := match stripLit "experience".data l with
    | some r => some r
    | none => stripLit "exp".data l
  match first with
  | none => none
  | some r1 =>
    let mid := match stripLit "of".data (dropSpaces r1) with
      | some x => some (dropSpaces x)
      | none => oneSpace r1
    match mid with
    | none => none
    | some r2 =>
      let (ds, r3) := spanDigits r2
      if ds.isEmpty then none else
      let r5 := dropSpaces (optChar '+' r3)
      match stripLit "year".data r5 with
      | none => none
      | some r6 => some (digitsToNat ds, optChar 's' r6)

/-- Pattern 4: `(\d+)\+?\s*yr[s]?\s*(?:of\s*)?(?:experience|exp)`. -/
def tryP4 (l : List Char) : Option (ℕ × List Char) :=
  let (ds, r1) := spanDigits l
  if ds.isEmpty then none else
  let r3 := dropSpaces (optChar '+' r1)
  match stripLit "yr".data r3 with
  | none => none
  | some r4 =>
    let r6 := dropSpaces (optChar 's' r4)
    let r7 := match stripLit "of".data r6 with
      | some x => dropSpaces x
      | none => r6
    match stripLit "experience".data r7 with
    | some r8 => some (digitsToNat ds, r8)
    | none =>
      match stripLit "exp".data r7 with
      | some r8 => some (digitsToNat ds, r8)
      | none => none

/-- Pattern 5: `(\d+)\+?\s*years?\s*(?:working|in\s+field)`. -/
def tryP5 (l : List Char) : Option (ℕ × List Char) :=
  let (ds, r1) := spanDigits l
  if ds.isEmpty then none else
  let r3 := dropSpaces (optChar '+' r1)
  match stripLit "year".data r3 with
  | none => none
  | some r4 =>
    let r6 := dropSpaces (optChar 's' r4)
    match stripLit "working".data r6 with
    | some r7 => some (digitsToNat ds, r7)
    | none =>
      match stripLit "in".data r6 with
      | none => none
      | some r7 =>
        match oneSpace r7 with
        | none => none
        | some r8 =>
          match stripLit "field".data r8 with
          | none => none
          | some r9 => some (digitsToNat ds, r9)

/-- Pattern 6: `\((\d+)\s*years?\)`. -/
def tryP6 (l : List Char) : Option (ℕ × List Char) :=
  match l with
  | '(' :: r0 =>
    let (ds, r1) := spanDigits r0
    if ds.isEmpty then none else
    let r2 := dropSpaces r1
    match stripLit "year".data r2 with
    | none => none
    | some r3 =>
      match optChar 's' r3 with
      | ')' :: r4 => some (digitsToNat ds, r4)
      | _ => none
  | _ => none

/-- Pattern 7: `(\d+)\s*years?`. -/
def tryP7 (l : List Char) : Option (ℕ × List Char) :=
  let (ds, r1) := spanDigits l
  if ds.isEmpty then none else
  let r2 := dropSpaces r1
  match stripLit "year".data r2 with
  | none => none
  | some r3 => some (digitsToNat ds, optChar 's' r3)

/-- Pattern 8: `(\d{4})\s*[-–]\s*(?:present|current)` (captures the start
year). -/
def tryP8 (l : List Char) : Option (ℕ × List Char) :=
  match l with
  | a :: b :: c :: d :: r0 =>
    if a.isDigit && b.isDigit && c.isDigit && d.isDigit then
      let r1 := dropSpaces r0
      match r1 with
      | x :: r2 =>
        if x = '-' || x = '–' then
          let r3 := dropSpaces r2
          match stripLit "present".data r3 with
          | some r4 => some (digitsToNat [a, b, c, d], r4)
          | none =>
            match stripLit "current".data r3 with
            | some r4 => some (digitsToNat [a, b, c, d], r4)
            | none => none
        else none
      | [] => none
    else none
  | _ => none

/-- `re.findall`: scan left to right, emitting each match's captured value
and continuing after the end of the match. Every pattern consumes at least
one character on success, so fuel `l.length + 1` covers the whole scan. -/
def findAll (tryPat : List Char → Option (ℕ × List Char)) :
    ℕ → List Char → List ℕ
  | 0, _ => []
  | fuel + 1, l =>
    match tryPat l with
    | some (n, rest) => n :: findAll tryPat fuel rest
    | none =>
      match l with
      | [] => []
      | _ :: t => findAll tryPat fuel t

/-- The start years captured by pattern 8 on the lower-cased text. -/
def p8StartYears (text : String) : List ℕ :=
  let l := text.data.map Char.toLower
  findAll tryP8 (l.length + 1) l

/-- The values captured by the seven counting patterns on the lower-cased
text, in pattern order (each is appended as `int(match)`). -/
def matchedCounts (text : String) : List ℕ :=
  let l := text.data.map Char.toLower
  let fuel := l.length + 1
  findAll tryP1 fuel l ++ findAll tryP2 fuel l ++ findAll tryP3 fuel l
    ++ findAll tryP4 fuel l ++ findAll tryP5 fuel l ++ findAll tryP6 fuel l
    ++ findAll tryP7 fuel l

/-- All matched year values of `extract_experience_years`, in pattern
order. Pattern 8 contributes `current_year - start_year` with the source's
pinned `current_year = 2025`. -/
def matchedYears (text : String) : List ℤ :=
  (matchedCounts text).map (fun (n : ℕ) => (n : ℤ))
    ++ (p8StartYears text).map (fun (n : ℕ) => 2025 - (n : ℤ))

/-- Embeds `extract_experience_years(text)`: sum over the *set* of distinct
matched values (`sum(year for year in set(years))`), capped at 50; 0 when
nothing matched. -/
def extract_experience_years (text : String) : ℤ :=
  let years := matchedYears text
  if years.isEmpty then 0 else min years.dedup.sum 50

/-! ## Skills database and skill extraction

Embeds `_initialize_skills_database` and `extract_dynamic_skills`.
Python dicts preserve insertion order, so the taxonomy is an association
list in source order.
-/

/-- The skills database of `_initialize_skills_database`. -/
def universal_skills : List (String × List String) := [
    ("ACCOUNTANT", ["financial analysis", "tax preparation", "auditing", "budgeting", "bookkeeping", "payroll", "gaap", "ifrs", "quickbooks", "sap", "excel", "financial reporting"]),
    ("ADVOCATE", ["legal research", "litigation", "contract law", "negotiation", "courtroom experience", "client counseling", "legal writing", "case management", "appellate practice"]),
    ("AGRICULTURE", ["crop management", "soil science", "irrigation", "pest control", "farm management", "agricultural economics", "sustainability", "organic farming", "precision agriculture"]),
    ("APPAREL", ["fashion design", "textile knowledge", "pattern making", "sewing", "merchandising", "retail management", "brand development", "trend analysis", "supply chain"]),
    ("ARTS", ["graphic design", "illustration", "photography", "art history", "creative writing", "performing arts", "visual arts", "art education", "digital art"]),
    ("AUTOMOBILE", ["mechanical engineering", "auto repair", "diagnostics", "electrical systems", "engine tuning", "transmission", "brake systems", "automotive technology", "cad"]),
    ("AVIATION", ["piloting", "aircraft maintenance", "air traffic control", "aviation safety", "flight planning", "navigation", "aerodynamics", "regulatory compliance", "airport operations"]),
    ("BANKING", ["financial services", "credit analysis", "risk management", "investment banking", "loan processing", "customer service", "compliance", "fraud detection", "treasury"]),
    ("BPO", ["customer support", "data entry", "call center operations", "process improvement", "quality assurance", "telemarketing", "outsourcing", "client management", "crm"]),
    ("BUSINESS-DEVELOPMENT", ["sales", "market research", "strategic planning", "lead generation", "client acquisition", "partnership development", "negotiation", "crm", "business intelligence"]),
    ("CHEF", ["culinary arts", "menu planning", "food safety", "kitchen management", "recipe development", "catering", "baking", "pastry", "cost control"]),
    ("CONSTRUCTION", ["project management", "blueprint reading", "safety regulations", "heavy machinery operation", "carpentry", "plumbing", "electrical work", "masonry", "estimating"]),
    ("CONSULTANT", ["strategic consulting", "problem-solving", "data analysis", "client relations", "project management", "industry expertise", "report writing", "presentation skills", "change management"]),
    ("DESIGNER", ["graphic design", "ui/ux design", "web design", "branding", "typography", "adobe creative suite", "prototyping", "user research", "wireframing"]),
    ("DIGITAL-MEDIA", ["social media management", "content creation", "seo", "sem", "video editing", "photography", "copywriting", "analytics", "influencer marketing"]),
    ("ENGINEERING", ["mechanical engineering", "electrical engineering", "civil engineering", "software engineering", "cad", "matlab", "project management", "quality control", "lean manufacturing"]),
    ("FINANCE", ["financial modeling", "investment analysis", "portfolio management", "risk assessment", "financial reporting", "budgeting", "forecasting", "bloomberg", "derivatives"]),
    ("FITNESS", ["personal training", "group fitness instruction", "nutrition", "exercise physiology", "client assessment", "program design", "motivation", "safety", "rehabilitation"]),
    ("HEALTHCARE", ["patient care", "medical terminology", "emr", "clinical skills", "nursing", "pharmacy", "radiology", "surgery", "infection control"]),
    ("HR", ["recruitment", "employee relations", "performance management", "training", "compensation", "benefits", "labor laws", "hris", "talent acquisition"]),
    ("INFORMATION-TECHNOLOGY", ["programming", "network administration", "cybersecurity", "database management", "cloud computing", "it support", "software development", "systems analysis", "devops"]),
    ("LEGAL", ["legal research", "contract law", "litigation", "negotiation", "compliance", "case management", "legal writing", "client counseling", "regulatory affairs"]),
    ("MARKETING", ["digital marketing", "content marketing", "social media marketing", "seo", "sem", "ppc", "google analytics", "brand management", "market research", "campaign management", "copywriting", "a/b testing", "conversion optimization"]),
    ("MEDICAL", ["patient care", "medical terminology", "clinical skills", "diagnosis", "treatment planning", "emergency care", "pharmacology", "healthcare regulations", "medical records"]),
    ("NGO", ["project management", "fundraising", "community outreach", "grant writing", "advocacy", "program evaluation", "stakeholder engagement", "volunteer management", "impact measurement"]),
    ("PHARMACEUTICAL", ["drug development", "clinical trials", "regulatory affairs", "pharmacology", "quality assurance", "sales", "marketing", "research and development", "gmp"]),
    ("RESEARCH", ["data analysis", "statistical methods", "literature review", "experimental design", "report writing", "research methodologies", "fieldwork", "academic publishing", "peer review"]),
    ("RETAIL", ["customer service", "inventory management", "sales", "merchandising", "visual display", "point of sale systems", "product knowledge", "store operations", "loss prevention"]),
    ("PUBLIC-RELATIONS", ["media relations", "press releases", "event planning", "crisis management", "social media", "content creation", "brand management", "stakeholder engagement", "reputation management"]),
    ("SALES", ["lead generation", "customer relationship management", "sales strategy", "negotiation", "product knowledge", "closing deals", "market analysis", "cold calling", "account management"]),
    ("TEACHER", ["curriculum development", "classroom management", "lesson planning", "student assessment", "educational technology", "special education", "counseling", "pedagogy", "differentiated instruction"]),
    ("TECHNICAL-SUPPORT", ["troubleshooting", "customer service", "hardware support", "software installation", "network troubleshooting", "remote support", "ticketing systems", "technical documentation", "escalation management"]),
    ("TOURISM", ["customer service", "itinerary planning", "travel booking", "cultural knowledge", "event management", "tour guiding", "hospitality", "sustainability", "destination marketing"]),
    ("TRANSPORTATION", ["logistics", "supply chain management", "fleet management", "route planning", "safety regulations", "customer service", "inventory management", "transportation planning", "warehouse management"]),
    ("SOFT-SKILLS", ["communication", "teamwork", "problem-solving", "time management", "adaptability", "creativity", "work ethic", "interpersonal skills", "leadership", "attention to detail", "critical thinking"])]

/-- Python regex word characters `[a-zA-Z0-9_]` (ASCII model of `\w`). -/
def isWordChar (c : Char) : Bool := c.isAlphanum || c = '_'

/-- Python `\b` between an optional previous and next character: it matches
when exactly one side is a word character (absent counts as non-word). -/
def boundaryOk : Option Char → Option Char → Bool
  | some a, some b => isWordChar a != isWordChar b
  | none, some b => isWordChar b
  | some a, none => isWordChar a
  | none, none => false

/-- `re.search(rf'\b{re.escape(skill)}\b', text)`: the escaped phrase occurs
literally at some position, with a `\b` boundary on both sides. -/
def wordBoundaryMatch (s t : List Char) : Bool :=
  (List.range (t.length + 1)).any (fun i =>
    let rest := t.drop i
    s.isPrefixOf rest && boundaryOk (t.take i).getLast? s.head? &&
      boundaryOk s.getLast? (rest.drop s.length).head?)

/-- Python substring containment `needle in haystack`. -/
def containsSub (needle haystack : List Char) : Bool :=
  (List.range (haystack.length + 1)).any
    (fun i => needle.isPrefixOf (haystack.drop i))

/-- The per-phrase test of `extract_dynamic_skills`:
`skill in text_lower or re.search(rf'\b{re.escape(skill)}\b', text_lower)`. -/
def skillMatches (skill : String) (text_lower : List Char) : Bool :=
  containsSub skill.data text_lower || wordBoundaryMatch skill.data text_lower

/-- `reference_skills or self.universal_skills`: `None` and the empty mapping
are both falsy in Python, so either falls back to the universal database. -/
def skills_to_search (reference_skills : Option (List (String × List String))) :
    List (String × List String) :=
  match reference_skills with
  | some r => if r.isEmpty then universal_skills else r
  | none => universal_skills

/-- Embeds `extract_dynamic_skills(text, reference_skills)`: empty text gives
the empty mapping; otherwise each category keeps the phrases matching the
lower-cased text, and a category is included only when at least one of its
phrases matched. -/
def extract_dynamic_skills (text : String)
    (reference_skills : Option (List (String × List String))) :
    List (String × List String) :=
  if text = "" then []
  else
    let text_lower := text.data.map Char.toLower
    ((skills_to_search reference_skills).map
      (fun p => (p.1, p.2.filter (fun skill => skillMatches skill text_lower)))).filter
      (fun p => !p.2.isEmpty)

/-! ## Skill match score and recommendations -/

/-- One value of the `skill_breakdown` dict built by
`calculate_advanced_skill_match`. -/
structure SkillBreakdownEntry where
  required : ℕ
  matched : ℕ
  matched_skills : List String
  missing_skills : List String
deriving DecidableEq

/-- Python `category in resume_skills` / `resume_skills[category]` on the
association-list model of a dict. -/
def lookup_skills (m : List (String × List String)) (category : String) :
    Option (List String) :=
  (m.find? (fun p => p.1 == category)).map (fun p => p.2)

/-- The loop body of `calculate_advanced_skill_match`: the breakdown entry
for one requirement category. Python's `list(set(xs) & set(ys))` /
`list(set(xs) - set(ys))` are modelled as `xs.dedup.filter`: the same
elements, one occurrence each (the hash ordering inside a Python set is
observable only as list order, which no claim depends on). -/
def breakdown_entry (resume_skills : List (String × List String))
    (p : String × List String) : String × SkillBreakdownEntry :=
  match lookup_skills resume_skills p.1 with
  | some rskills =>
    let matched := p.2.dedup.filter (fun s => decide (s ∈ rskills))
    (p.1, { required := p.2.length, matched := matched.length,
            matched_skills := matched,
            missing_skills := p.2.dedup.filter (fun s => decide (s ∉ rskills)) })
  | none =>
    (p.1, { required := p.2.length, matched := 0,
            matched_skills := [], missing_skills := p.2 })

/-- Embeds `calculate_advanced_skill_match(job_skills, resume_skills)`. -/
def calculate_advanced_skill_match
    (job_skills resume_skills : List (String × List String)) :
    ℚ × List (String × SkillBreakdownEntry) :=
  let total_job_skills := total_skills job_skills
  if total_job_skills = 0 then (0, [])
  else
    let skill_breakdown := job_skills.map (breakdown_entry resume_skills)
    let matched_skills := (skill_breakdown.map (fun q => q.2.matched)).sum
    ((matched_skills : ℚ) / (total_job_skills : ℚ), skill_breakdown)

/-- Specification-side count for C8: the number of distinct requirement
phrases, summed across sectors, that are also present under the same sector
of the candidate (a sector absent from the candidate contributes nothing). -/
def spec_matched_count (job_skills resume_skills : List (String × List String)) : ℕ :=
  (job_skills.map (fun p =>
    (p.2.dedup.filter
      (fun s => decide (s ∈ (lookup_skills resume_skills p.1).getD []))).length)).sum

/-- The skills statement template of `generate_recommendations`. -/
def skills_recommendation (names : List String) : String :=
  "Consider developing skills in: " ++ String.intercalate ", " names

/-- The experience statement template of `generate_recommendations`. -/
def experience_recommendation (experience_gap : ℤ) : String :=
  "Gain " ++ toString experience_gap ++ " more years of relevant experience"

/-- The education statement of `generate_recommendations`. -/
def education_recommendation : String :=
  "Consider pursuing higher education qualifications"

/-- Embeds `generate_recommendations(skill_breakdown, experience_gap,
education_gap)`: collect the first 3 missing phrases of each sector (a
sector with no missing phrases contributes nothing, exactly like the
`if breakdown['missing_skills']` guard, since `[][:3]` is `[]`); if any
were collected, one skills statement naming the first 5; then an experience
statement when the gap is positive; then an education statement when the
gap is positive. -/
def generate_recommendations
    (skill_breakdown : List (String × SkillBreakdownEntry))
    (experience_gap education_gap : ℤ) : List String :=
  let missing_skills :=
    (skill_breakdown.map (fun p => p.2.missing_skills.take 3)).flatten
  (if !missing_skills.isEmpty then
     [skills_recommendation (missing_skills.take 5)] else [])
    ++ (if experience_gap > 0 then
     [experience_recommendation experience_gap] else [])
    ++ (if education_gap > 0 then [education_recommendation] else [])

/-! ## Ranking results and the output sort (from `rank_resumes`) -/

/-- Embeds the `RankingResult` dataclass. -/
structure RankingResult where
  filename : String
  sector : String
  combined_score : ℚ
  text_similarity : ℚ
  skill_score : ℚ
  experience_score : ℚ
  education_score : ℚ
  experience_years : ℤ
  education_level : ℤ
  skills_found : List (String × List String)
  match_percentage : ℚ
  recommendations : List String
  file_path : Option String
deriving DecidableEq

/-- Embeds `sorted(results, key=lambda x: x.combined_score, reverse=True)`.
Python's `sorted` is stable; with `reverse=True` it orders by key descending
while keeping equal-key elements in input order. `List.mergeSort` with this
left-biased comparator produces exactly that order: it is sorted for the
comparator (`List.sorted_mergeSort`) and stable (`List.sublist_mergeSort`),
and a stable descending-by-key permutation is unique. -/
def sort_by_combined_score (results : List RankingResult) : List RankingResult :=
  results.mergeSort (fun a b => decide (b.combined_score ≤ a.combined_score))

/-! ## Text similarity (from `calculate_text_similarity`)

The TF-IDF fit and cosine similarity are external library calls
(`sklearn`); they are modelled by an oracle `fit` that either produces the
similarity scores or fails, mirroring the `try/except` in the source.
-/

/-- Embeds `calculate_text_similarity(job_description, resume_texts)`:
empty candidate list short-circuits to an empty result; otherwise the model
is fit on `[job_description] + resume_texts` and any exception is caught and
replaced by `np.zeros(len(resume_texts))`. -/
def calculate_text_similarity (fit : List String → Except String (List ℚ))
    (job_description : String) (resume_texts : List String) : List ℚ :=
  if resume_texts.isEmpty then []
  else
    match fit (job_description :: resume_texts) with
    | Except.ok sims => sims
    | Except.error _ => List.replicate resume_texts.length 0

/-! ## Theorems -/

/-- **C1.** For every requirement skill mapping and every required-years value,
the four adaptive weights produced by `_calculate_adaptive_weights` sum to 1,
on every branch of the adjustment logic, provided the configured base weights
have a nonzero sum (the default configuration sums to 1). The two shifts are
each net-zero, so the renormalizing division is by that same nonzero sum. -/
theorem adaptive_weights_sum_one (config : WeightConfig)
    (h : config.text_weight + config.skill_weight + config.experience_weight +
      config.education_weight ≠ 0)
    (job_skills : List (String × List String)) (job_exp_years : ℤ) :
    (calculate_adaptive_weights config job_skills job_exp_years).total = 1 := by
  have key : ∀ t s e d : ℚ, t + s + e + d ≠ 0 →
      t / (t + s + e + d) + s / (t + s + e + d) + e / (t + s + e + d) +
        d / (t + s + e + d) = 1 := by
    intro t s e d hne
    field_simp
  unfold calculate_adaptive_weights Weights.total
  split <;> split <;> dsimp only <;>
    exact key _ _ _ _ fun hc => h (by linarith)

/-- Witness for C1: the default configuration on concrete inputs that hit all
four branches (no shift / skill-heavy / experience-heavy / both). -/
theorem adaptive_weights_sum_one_witness :
    (calculate_adaptive_weights default_config [] 0).total = 1 ∧
    (calculate_adaptive_weights default_config
      [("INFORMATION-TECHNOLOGY", List.replicate 16 "programming")] 0).total = 1 ∧
    (calculate_adaptive_weights default_config [] 8).total = 1 ∧
    (calculate_adaptive_weights default_config
      [("INFORMATION-TECHNOLOGY", List.replicate 16 "programming")] 8).total = 1 :=
  ⟨adaptive_weights_sum_one default_config (by norm_num [default_config]) [] 0,
   adaptive_weights_sum_one default_config (by norm_num [default_config]) _ 0,
   adaptive_weights_sum_one default_config (by norm_num [default_config]) [] 8,
   adaptive_weights_sum_one default_config (by norm_num [default_config]) _ 8⟩

/-- **C4.** The experience score of `rank_resumes`: with required-years > 0 it
equals the ratio when the ratio is ≤ 1 (hence exactly 1 at equality), and
`1 − min((ratio−1)·0.1, 0.3)` when the ratio exceeds 1, which never goes below
0.7; with required-years = 0 it is `min(candidate-years / 5, 1)`. -/
theorem experience_score_spec (cy ry : ℤ) :
    (0 < ry → (cy : ℚ) / (ry : ℚ) ≤ 1 →
      experience_score cy ry = (cy : ℚ) / (ry : ℚ)) ∧
    (0 < ry → cy = ry → experience_score cy ry = 1) ∧
    (0 < ry → 1 < (cy : ℚ) / (ry : ℚ) →
      experience_score cy ry = 1 - min (((cy : ℚ) / (ry : ℚ) - 1) * 0.1) 0.3 ∧
      (0.7 : ℚ) ≤ experience_score cy ry) ∧
    (ry = 0 → experience_score cy ry = min ((cy : ℚ) / 5) 1) := by
  refine ⟨?_, ?_, ?_, ?_⟩
  · intro hry hle
    simp only [experience_score, if_pos hry, if_pos hle]
  · intro hry heq
    subst heq
    have hne : ((cy : ℚ)) ≠ 0 := by
      exact_mod_cast (show (cy : ℤ) ≠ 0 by omega)
    simp only [experience_score, if_pos hry, div_self hne, le_refl, if_pos]
  · intro hry hgt
    have hnle : ¬ ((cy : ℚ) / (ry : ℚ) ≤ 1) := not_le.mpr hgt
    constructor
    · simp only [experience_score, if_pos hry, if_neg hnle]
    · simp only [experience_score, if_pos hry, if_neg hnle]
      have : min (((cy : ℚ) / (ry : ℚ) - 1) * 0.1) 0.3 ≤ 0.3 := min_le_right _ _
      linarith
  · intro hz
    subst hz
    simp [experience_score]

/-- Witness for C4: concrete evaluations on each branch
(5/4 over-qualified, 3 = 3 exact, 2/4 under, required 0). -/
theorem experience_score_spec_witness :
    experience_score 2 4 = (2 : ℚ) / 4 ∧
    experience_score 3 3 = 1 ∧
    (experience_score 5 4 = 1 - min (((5 : ℚ) / 4 - 1) * 0.1) 0.3 ∧
      (0.7 : ℚ) ≤ experience_score 5 4) ∧
    experience_score 7 0 = min ((7 : ℚ) / 5) 1 :=
  ⟨(experience_score_spec 2 4).1 (by norm_num) (by norm_num),
   (experience_score_spec 3 3).2.1 (by norm_num) rfl,
   (experience_score_spec 5 4).2.2.1 (by norm_num) (by norm_num),
   (experience_score_spec 7 0).2.2.2 rfl⟩

/-- With the default configuration, every adaptive weight is nonnegative on
every branch, and the four weights sum to 1. -/
theorem default_weights_nonneg_sum_one (js : List (String × List String)) (je : ℤ) :
    0 ≤ (calculate_adaptive_weights default_config js je).text ∧
    0 ≤ (calculate_adaptive_weights default_config js je).skills ∧
    0 ≤ (calculate_adaptive_weights default_config js je).experience ∧
    0 ≤ (calculate_adaptive_weights default_config js je).education ∧
    (calculate_adaptive_weights default_config js je).total = 1 := by
  unfold calculate_adaptive_weights Weights.total default_config
  split <;> split <;> dsimp only <;> norm_num

/-- **C5.** For any four component scores each in [0,1] and the adaptive
weights in use (default configuration, any branch), the combined score of
`rank_resumes` lies in [0,1], and the match percentage is the combined score
times 100. -/
theorem combined_score_unit_interval (js : List (String × List String)) (je : ℤ)
    (t s e d : ℚ)
    (ht0 : 0 ≤ t) (ht1 : t ≤ 1) (hs0 : 0 ≤ s) (hs1 : s ≤ 1)
    (he0 : 0 ≤ e) (he1 : e ≤ 1) (hd0 : 0 ≤ d) (hd1 : d ≤ 1) :
    0 ≤ combined_score (calculate_adaptive_weights default_config js je) t s e d ∧
    combined_score (calculate_adaptive_weights default_config js je) t s e d ≤ 1 ∧
    match_percentage (combined_score (calculate_adaptive_weights default_config js je) t s e d)
      = combined_score (calculate_adaptive_weights default_config js je) t s e d * 100 := by
  obtain ⟨h1, h2, h3, h4, h5⟩ := default_weights_nonneg_sum_one js je
  unfold Weights.total at h5
  unfold combined_score
  refine ⟨?_, ?_, rfl⟩
  · exact add_nonneg (add_nonneg (add_nonneg (mul_nonneg h1 ht0) (mul_nonneg h2 hs0))
      (mul_nonneg h3 he0)) (mul_nonneg h4 hd0)
  · have b1 := mul_le_of_le_one_right h1 ht1
    have b2 := mul_le_of_le_one_right h2 hs1
    have b3 := mul_le_of_le_one_right h3 he1
    have b4 := mul_le_of_le_one_right h4 hd1
    linarith

/-- Witness for C5: all components equal to 1 on the base branch give a
combined score in [0,1] and a consistent match percentage. -/
theorem combined_score_unit_interval_witness :
    0 ≤ combined_score (calculate_adaptive_weights default_config [] 0) 1 1 1 1 ∧
    combined_score (calculate_adaptive_weights default_config [] 0) 1 1 1 1 ≤ 1 ∧
    match_percentage (combined_score (calculate_adaptive_weights default_config [] 0) 1 1 1 1)
      = combined_score (calculate_adaptive_weights default_config [] 0) 1 1 1 1 * 100 :=
  combined_score_unit_interval [] 0 1 1 1 1
    (by norm_num) (by norm_num) (by norm_num) (by norm_num)
    (by norm_num) (by norm_num) (by norm_num) (by norm_num)

/-- **C6.** For every batch, the output of the ranking sort is ordered by
descending combined score, and the sort is stable: two results with equal
combined scores appear in the output in the same relative order they had in
the input. -/
theorem rank_output_sorted_and_stable (l : List RankingResult) :
    (sort_by_combined_score l).Pairwise
      (fun a b => b.combined_score ≤ a.combined_score) ∧
    (∀ a b : RankingResult, [a, b].Sublist l →
      a.combined_score = b.combined_score →
      [a, b].Sublist (sort_by_combined_score l)) := by
  have trans : ∀ x y z : RankingResult,
      decide (y.combined_score ≤ x.combined_score) →
      decide (z.combined_score ≤ y.combined_score) →
      decide (z.combined_score ≤ x.combined_score) := by
    intro x y z hxy hyz
    simp only [decide_eq_true_eq] at *
    exact le_trans hyz hxy
  have total : ∀ x y : RankingResult,
      decide (y.combined_score ≤ x.combined_score) ||
      decide (x.combined_score ≤ y.combined_score) := by
    intro x y
    rcases le_total y.combined_score x.combined_score with h | h <;> simp [h]
  constructor
  · have := @List.sorted_mergeSort RankingResult
      (fun a b : RankingResult => decide (b.combined_score ≤ a.combined_score))
      trans total l
    exact this.imp (by intro a b h; exact of_decide_eq_true h)
  · intro a b hsub heq
    exact List.pair_sublist_mergeSort trans total (by simp [heq]) hsub

/-- Witness for C6: a concrete three-element batch with a tied pair keeps the
tied pair in input order in the sorted output. -/
theorem rank_output_sorted_and_stable_witness :
    [{ filename := "b", sector := "General", combined_score := 1/2,
       text_similarity := 0, skill_score := 0, experience_score := 0,
       education_score := 0, experience_years := 0, education_level := 1,
       skills_found := [], match_percentage := 50, recommendations := [],
       file_path := none },
     { filename := "c", sector := "General", combined_score := 1/2,
       text_similarity := 0, skill_score := 0, experience_score := 0,
       education_score := 0, experience_years := 0, education_level := 1,
       skills_found := [], match_percentage := 50, recommendations := [],
       file_path := none }].Sublist
      (sort_by_combined_score
        [{ filename := "a", sector := "General", combined_score := 1,
           text_similarity := 0, skill_score := 0, experience_score := 0,
           education_score := 0, experience_years := 0, education_level := 1,
           skills_found := [], match_percentage := 100, recommendations := [],
           file_path := none },
         { filename := "b", sector := "General", combined_score := 1/2,
           text_similarity := 0, skill_score := 0, experience_score := 0,
           education_score := 0, experience_years := 0, education_level := 1,
           skills_found := [], match_percentage := 50, recommendations := [],
           file_path := none },
         { filename := "c", sector := "General", combined_score := 1/2,
           text_similarity := 0, skill_score := 0, experience_score := 0,
           education_score := 0, experience_years := 0, education_level := 1,
           skills_found := [], match_percentage := 50, recommendations := [],
           file_path := none }]) :=
  (rank_output_sorted_and_stable _).2 _ _
    ((List.Sublist.refl _).cons _) rfl

/-- **C7.** `calculate_text_similarity` never raises: an empty candidate list
yields an empty result without consulting the model, and a failing model fit
yields one zero per candidate text. -/
theorem text_similarity_never_raises (fit : List String → Except String (List ℚ))
    (jd : String) (ts : List String) :
    (ts = [] → calculate_text_similarity fit jd ts = []) ∧
    (∀ msg, fit (jd :: ts) = Except.error msg →
      calculate_text_similarity fit jd ts = List.replicate ts.length 0) := by
  constructor
  · rintro rfl
    rfl
  · intro msg hmsg
    unfold calculate_text_similarity
    by_cases h : ts.isEmpty
    · rw [if_pos h]
      rw [List.isEmpty_iff] at h
      subst h
      rfl
    · rw [if_neg h, hmsg]

/-- Witness for C7: a fit oracle that always fails produces `[0, 0]` for a
two-candidate batch, and the empty batch produces `[]`. -/
theorem text_similarity_never_raises_witness :
    calculate_text_similarity (fun _ => Except.error "empty vocabulary") "job" [] = [] ∧
    calculate_text_similarity (fun _ => Except.error "empty vocabulary") "job"
      ["resume one", "resume two"] = [0, 0] :=
  ⟨(text_similarity_never_raises _ "job" []).1 rfl,
   (text_similarity_never_raises _ "job" ["resume one", "resume two"]).2
     "empty vocabulary" rfl⟩

/-- **C8.** The skill-score division is guarded: a requirement mapping with
zero total phrases yields score 0 and an empty breakdown for every candidate
(the division is never reached); otherwise the score is the count of
requirement phrases also found in the candidate, summed across sectors,
divided by the total requirement phrase count. -/
theorem skill_match_division_guarded (js rs : List (String × List String)) :
    (total_skills js = 0 → calculate_advanced_skill_match js rs = (0, [])) ∧
    (total_skills js ≠ 0 →
      (calculate_advanced_skill_match js rs).1 =
        (spec_matched_count js rs : ℚ) / (total_skills js : ℚ)) := by
  constructor
  · intro h
    simp only [calculate_advanced_skill_match]
    rw [if_pos h]
  · intro h
    simp only [calculate_advanced_skill_match]
    rw [if_neg h]
    dsimp only
    have hA : ((js.map (breakdown_entry rs)).map
          (fun q => ((q.2.matched : ℕ) : ℚ))).sum
        = ((spec_matched_count js rs : ℕ) : ℚ) := by
      unfold spec_matched_count
      rw [Nat.cast_list_sum, List.map_map, List.map_map]
      congr 1
      apply List.map_congr_left
      intro p _
      show ((breakdown_entry rs p).2.matched : ℚ) = _
      unfold breakdown_entry
      cases hl : lookup_skills rs p.1 <;> simp [hl]
    rw [hA]

/-- Witness for C8: a requirement with an empty phrase list gives `(0, [])`;
a two-phrase requirement with one phrase matched scores 1/2. -/
theorem skill_match_division_guarded_witness :
    calculate_advanced_skill_match [("INFORMATION-TECHNOLOGY", [])] [] = (0, []) ∧
    (calculate_advanced_skill_match
        [("INFORMATION-TECHNOLOGY", ["programming", "devops"])]
        [("INFORMATION-TECHNOLOGY", ["devops"])]).1 = 1 / 2 := by
  constructor
  · exact (skill_match_division_guarded [("INFORMATION-TECHNOLOGY", [])] []).1 rfl
  · have h := (skill_match_division_guarded
      [("INFORMATION-TECHNOLOGY", ["programming", "devops"])]
      [("INFORMATION-TECHNOLOGY", ["devops"])]).2 (by decide)
    have h1 : spec_matched_count
        [("INFORMATION-TECHNOLOGY", ["programming", "devops"])]
        [("INFORMATION-TECHNOLOGY", ["devops"])] = 1 := by decide
    have h2 : total_skills
        [("INFORMATION-TECHNOLOGY", ["programming", "devops"])] = 2 := by decide
    rw [h, h1, h2]
    norm_num

/-- **C9.** Every entry of the skills-found mapping produced by
`extract_dynamic_skills` (the mapping `parse_resume` stores unchanged in the
candidate profile) has a category of the searched mapping — the universal
taxonomy, or the requirement's skill mapping derived from it — and lists
only phrases of that category's taxonomy entry; an included category's
phrase list is never empty. -/
theorem skills_found_subset_of_taxonomy (text : String)
    (reference_skills : Option (List (String × List String)))
    (category : String) (phrases : List String)
    (hmem : (category, phrases) ∈ extract_dynamic_skills text reference_skills) :
    phrases ≠ [] ∧
    ∃ taxonomy_phrases,
      (category, taxonomy_phrases) ∈ skills_to_search reference_skills ∧
      ∀ s ∈ phrases, s ∈ taxonomy_phrases := by
  unfold extract_dynamic_skills at hmem
  by_cases htext : text = ""
  · rw [if_pos htext] at hmem
    exact absurd hmem (List.not_mem_nil _)
  · rw [if_neg htext] at hmem
    simp only [List.mem_filter, List.mem_map] at hmem
    obtain ⟨⟨p, hp, heq⟩, hne⟩ := hmem
    rw [Prod.mk.injEq] at heq
    obtain ⟨hcat, hph⟩ := heq
    subst hcat
    subst hph
    refine ⟨?_, p.2, ?_, ?_⟩
    · simpa using hne
    · rw [Prod.mk.eta]
      exact hp
    · intro s hs
      exact (List.mem_filter.mp hs).1

/-- Witness for C9: a concrete extraction against a two-phrase reference
mapping, with the subset conclusion instantiated. -/
theorem skills_found_subset_of_taxonomy_witness :
    ("IT", ["sql"]) ∈ extract_dynamic_skills "knows sql"
        (some [("IT", ["sql", "java"])]) ∧
    (["sql"] ≠ [] ∧ ∃ taxonomy_phrases,
      ("IT", taxonomy_phrases) ∈ skills_to_search (some [("IT", ["sql", "java"])]) ∧
      ∀ s ∈ ["sql"], s ∈ taxonomy_phrases) :=
  ⟨by decide,
   skills_found_subset_of_taxonomy "knows sql" (some [("IT", ["sql", "java"])])
     "IT" ["sql"] (by decide)⟩

/-- **C10.** `generate_recommendations` returns at most 3 statements in the
fixed order skills–experience–education: the skills statement is present iff
some sector has missing phrases and names at most 5 phrases, drawn at most 3
per sector from the missing lists; the experience statement is present iff
the experience gap is positive; the education statement iff the education
gap is positive. -/
theorem recommendations_shape (bd : List (String × SkillBreakdownEntry)) (eg dg : ℤ) :
    ∃ names : List String,
      names.length ≤ 5 ∧
      (∃ contribs : List (List String),
        List.Forall₂ (fun c (p : String × SkillBreakdownEntry) =>
          c.length ≤ 3 ∧ ∀ s ∈ c, s ∈ p.2.missing_skills) contribs bd ∧
        names = contribs.flatten.take 5) ∧
      (names ≠ [] ↔ ∃ p ∈ bd, p.2.missing_skills ≠ []) ∧
      generate_recommendations bd eg dg =
        (if names ≠ [] then [skills_recommendation names] else [])
          ++ (if eg > 0 then [experience_recommendation eg] else [])
          ++ (if dg > 0 then [education_recommendation] else []) ∧
      (generate_recommendations bd eg dg).length ≤ 3 := by
  refine ⟨((bd.map (fun p => p.2.missing_skills.take 3)).flatten).take 5,
    List.length_take_le _ _, ?_, ?_, ?_, ?_⟩
  · refine ⟨bd.map (fun p => p.2.missing_skills.take 3), ?_, rfl⟩
    rw [List.forall₂_map_left_iff, List.forall₂_same]
    intro p _
    exact ⟨List.length_take_le _ _, fun s hs => List.mem_of_mem_take hs⟩
  · constructor
    · intro hne
      rw [Ne, List.take_eq_nil_iff] at hne
      push_neg at hne
      obtain ⟨-, hfl⟩ := hne
      rw [Ne, List.flatten_eq_nil_iff] at hfl
      push_neg at hfl
      obtain ⟨l, hl, hlne⟩ := hfl
      rw [List.mem_map] at hl
      obtain ⟨p, hp, rfl⟩ := hl
      refine ⟨p, hp, fun h => hlne ?_⟩
      rw [h]
      rfl
    · rintro ⟨p, hp, hpne⟩ h
      rw [List.take_eq_nil_iff] at h
      rcases h with h | h
      · exact absurd h (by norm_num)
      · rw [List.flatten_eq_nil_iff] at h
        have h3 := h _ (List.mem_map_of_mem _ hp)
        rw [List.take_eq_nil_iff] at h3
        rcases h3 with h3 | h3
        · exact absurd h3 (by norm_num)
        · exact hpne h3
  · unfold generate_recommendations
    by_cases hm : (bd.map (fun p => p.2.missing_skills.take 3)).flatten = []
    · rw [hm]
      simp
    · have hm5 : ((bd.map (fun p => p.2.missing_skills.take 3)).flatten).take 5 ≠ [] := by
        rw [Ne, List.take_eq_nil_iff]
        push_neg
        exact ⟨by norm_num, hm⟩
      have hbm : ¬ ((bd.map (fun p => p.2.missing_skills.take 3)).flatten).isEmpty := by
        simpa [List.isEmpty_iff] using hm
      simp only [hbm, Bool.not_false, if_pos, hm5, ne_eq, not_false_eq_true]
  · unfold generate_recommendations
    dsimp only
    by_cases hb :
        (!((bd.map (fun p => p.2.missing_skills.take 3)).flatten).isEmpty) = true <;>
      by_cases he : eg > 0 <;> by_cases hd : dg > 0 <;>
      simp [hb, he, hd]

/-- Counterexample to C2 as stated: the date-range pattern
`(\d{4})\s*[-–]\s*(?:present|current)` contributes `2025 - start_year`, so
a start year above the pinned reference year 2025 makes the result
negative, outside [0, 50]. -/
theorem extract_years_range_counterexample :
    extract_experience_years "9999-present" = -7974 ∧
    ¬ (0 ≤ extract_experience_years "9999-present" ∧
        extract_experience_years "9999-present" ≤ 50) := by
  constructor
  · decide
  · intro h
    have := h.1
    rw [show extract_experience_years "9999-present" = -7974 from by decide] at this
    norm_num at this

/-- **C2 (amended).** For every text, `extract_experience_years` returns at
most 50, returns 0 when no pattern matches, and — since the seven counting
patterns only produce nonnegative values — is nonnegative (hence in
[0, 50]) whenever every start year captured by the `YYYY-present/current`
pattern is at most the reference year 2025. -/
theorem extract_years_le_fifty (text : String) :
    extract_experience_years text ≤ 50 ∧
    (matchedYears text = [] → extract_experience_years text = 0) ∧
    ((∀ y ∈ p8StartYears text, y ≤ 2025) →
      0 ≤ extract_experience_years text) := by
  refine ⟨?_, ?_, ?_⟩
  · unfold extract_experience_years
    by_cases h : (matchedYears text).isEmpty
    · rw [if_pos h]
      norm_num
    · rw [if_neg h]
      exact min_le_right _ _
  · intro h
    unfold extract_experience_years
    rw [h]
    rfl
  · intro h8
    unfold extract_experience_years
    by_cases h : (matchedYears text).isEmpty
    · rw [if_pos h]
    · rw [if_neg h]
      refine le_min ?_ (by norm_num)
      apply List.sum_nonneg
      intro y hy
      have hy' : y ∈ matchedYears text := List.mem_dedup.mp hy
      have key : ∀ z : ℤ, z ∈ matchedYears text →
          (∃ n : ℕ, z = (n : ℤ)) ∨
          (∃ n : ℕ, n ∈ p8StartYears text ∧ z = 2025 - (n : ℤ)) := by
        intro z hz
        unfold matchedYears at hz
        rcases List.mem_append.mp hz with h1 | h1
        · obtain ⟨n, -, hn⟩ := List.mem_map.mp h1
          exact Or.inl ⟨n, hn.symm⟩
        · obtain ⟨n, hmem, hn⟩ := List.mem_map.mp h1
          exact Or.inr ⟨n, hmem, hn.symm⟩
      rcases key y hy' with ⟨n, rfl⟩ | ⟨n, hn, rfl⟩
      · exact Int.natCast_nonneg n
      · have := h8 n hn
        omega

/-- Witness for C2 (amended): a no-match text gives 0 with both bounds, on
concrete inputs discharging both hypotheses. -/
theorem extract_years_le_fifty_witness :
    extract_experience_years "no numbers here" = 0 ∧
    extract_experience_years "no numbers here" ≤ 50 ∧
    0 ≤ extract_experience_years "no numbers here" :=
  ⟨(extract_years_le_fifty "no numbers here").2.1 (by decide),
   (extract_years_le_fifty "no numbers here").1,
   (extract_years_le_fifty "no numbers here").2.2 (by decide)⟩

/-- **C3.** Experience extraction de-duplicates repeated matched values:
the result sums over the set of distinct matched integers. The first text
matches the value 5 four times (patterns 1, 2 and two hits of the bare
`\d+ years` pattern) yet yields 5, not 10; the second matches 5 and 3 twice
each and yields 8. -/
theorem extract_years_dedup :
    extract_experience_years "5 years of experience... 5 years in management" = 5 ∧
    matchedYears "5 years of experience... 5 years in management" = [5, 5, 5, 5] ∧
    (matchedYears "5 years of experience... 5 years in management").dedup = [5] ∧
    extract_experience_years "5 years of experience and 3 years in management" = 8 ∧
    matchedYears "5 years of experience and 3 years in management" = [5, 3, 5, 3] ∧
    (matchedYears "5 years of experience and 3 years in management").dedup = [5, 3] := by
  refine ⟨?_, ?_, ?_, ?_, ?_, ?_⟩ <;> decide

end FitFinder
